import Mathlib

/-!
Verification development for jm-raid-status: a shallow embedding of the
JMicron mailbox-protocol core (CRC engine, XOR scrambler, mailbox safety
checks, command framing) together with theorems settling the stated
properties of the design.

Sources embedded:
  src/src/jm_crc.c        — CRC-32 engine (JM_CRC, crc_table)
  src/src/sata_xor.h      — scrambler interface (implementation modelled
                            from the spec; sata_xor.c is not in the tree)
  src/src/jm_protocol.c   — jm_execute_command, jm_read_sector_block
  src/src/jmraidstatus.c  — is_sector_in_safe_range, is_sector_empty, main
  src/src/jm_commands.c   — cmd_counter, execute_probe_command
-/

namespace JmRaidStatus

/-! ## CRC engine (src/src/jm_crc.c) -/

/-- CRC-32 polynomial, `#define CRC32_POLY 0x04C11DB7` in jm_crc.c. -/
def CRC32_POLY : Nat := 0x04C11DB7

/-- JMicron-specific seed, `#define JM_CRC_SEED 0x52325032` in jm_crc.c. -/
def JM_CRC_SEED : Nat := 0x52325032

/-- One bit step of the table construction loop in `init_crc_table`:
`crc = (crc & 0x80000000) ? (crc << 1) ^ CRC32_POLY : crc << 1`,
on a 32-bit accumulator (hence the reduction mod 2^32). -/
def crc_table_bit_step (crc : Nat) : Nat :=
  if crc &&& 0x80000000 ≠ 0 then ((crc <<< 1) ^^^ CRC32_POLY) % 2 ^ 32
  else (crc <<< 1) % 2 ^ 32

/-- Entry `i` of the 256-entry table built by `init_crc_table` in jm_crc.c:
start from `i << 24` and apply the bit step 8 times. Call sites only use
indices below 256. -/
def crc_table (i : Nat) : Nat := crc_table_bit_step^[8] (i <<< 24)

/-- One byte fold of the JM_CRC loop body:
`crc = crc_table[(byte ^ (crc >> 24)) & 0xFF] ^ (crc << 8)` on uint32. -/
def crc_byte (crc b : Nat) : Nat :=
  crc_table ((b ^^^ crc >>> 24) &&& 0xFF) ^^^ (crc <<< 8) % 2 ^ 32

/-- `__builtin_bswap32` on a 32-bit value. -/
def bswap32 (w : Nat) : Nat :=
  ((w &&& 0xFF) <<< 24) ||| (((w >>> 8) &&& 0xFF) <<< 16) |||
    (((w >>> 16) &&& 0xFF) <<< 8) ||| ((w >>> 24) &&& 0xFF)

/-- The body of the JM_CRC word loop in jm_crc.c: byte-swap the word to
big-endian and fold its four bytes, least significant first. -/
def crc_word (crc w : Nat) : Nat :=
  let word := bswap32 w
  crc_byte (crc_byte (crc_byte (crc_byte crc (word &&& 0xFF))
    ((word >>> 8) &&& 0xFF)) ((word >>> 16) &&& 0xFF)) ((word >>> 24) &&& 0xFF)

/-- `uint32_t JM_CRC(uint32_t *data, uint32_t num_words)` from jm_crc.c:
fold the first `num_words` words through `crc_word`, starting from the
seed; the accumulator is returned without any final XOR. -/
def JM_CRC (data : Nat → Nat) (num_words : Nat) : Nat :=
  (List.range num_words).foldl (fun crc i => crc_word crc (data i)) JM_CRC_SEED

/-! ## Scrambler (src/src/sata_xor.h) -/

/-- Modelled from the spec: the implementation of `SATA_XOR` (a sata_xor.c
holding the fixed 512-byte mask table) is not in the source tree; only the
header and its tests are. Per the spec (section 4.2) the scrambler XORs a
fixed hard-coded mask word-wise over the 128-word frame, so it is embedded
as word-wise XOR against an abstract mask. -/
def SATA_XOR (mask : Fin 128 → Nat) (theData : Fin 128 → Nat) : Fin 128 → Nat :=
  fun i => theData i ^^^ mask i

/-! ## Theorems: scrambler and CRC -/

/-- C2: for every 512-byte frame viewed as 128 32-bit words (and any fixed
mask), applying the XOR scrambler twice restores the frame exactly. -/
theorem SATA_XOR_involution (mask frame : Fin 128 → Nat) :
    SATA_XOR mask (SATA_XOR mask frame) = frame := by
  funext i
  show frame i ^^^ mask i ^^^ mask i = frame i
  rw [Nat.xor_assoc, Nat.xor_self, Nat.xor_zero]

/-- The CRC recurrence: processing one more word folds it (byte-swapped,
via `crc_word`) into the accumulator so far. -/
theorem JM_CRC_succ (data : Nat → Nat) (n : Nat) :
    JM_CRC data (n + 1) = crc_word (JM_CRC data n) (data n) := by
  unfold JM_CRC
  rw [List.range_succ, List.foldl_append, List.foldl_cons, List.foldl_nil]

/-- C3: the CRC starts from accumulator 0x52325032 (in particular
`JM_CRC x 0` is the seed unchanged), each further word is byte-swapped to
big-endian and folded through the table-driven byte step, with no final
XOR (the accumulator of the last fold is the result), and the table is the
one generated from polynomial 0x04C11DB7 (entry 1 is the polynomial
itself). -/
theorem JM_CRC_spec :
    (∀ data : Nat → Nat, JM_CRC data 0 = JM_CRC_SEED) ∧
    JM_CRC_SEED = 0x52325032 ∧
    (∀ data : Nat → Nat, ∀ n : Nat,
      JM_CRC data (n + 1) =
        crc_byte (crc_byte (crc_byte (crc_byte (JM_CRC data n)
          (bswap32 (data n) &&& 0xFF)) ((bswap32 (data n) >>> 8) &&& 0xFF))
          ((bswap32 (data n) >>> 16) &&& 0xFF)) ((bswap32 (data n) >>> 24) &&& 0xFF)) ∧
    crc_table 1 = CRC32_POLY ∧
    CRC32_POLY = 0x04C11DB7 := by
  refine ⟨fun data => rfl, rfl, fun data n => ?_, by decide, rfl⟩
  rw [JM_CRC_succ]
  rfl

/-! ## Mailbox safety (src/src/jmraidstatus.c) -/

/-- `is_sector_empty(sector_data, size)` from jmraidstatus.c: true exactly
when every byte of the buffer (here, the list of its bytes) is zero. -/
def is_sector_empty (sector_data : List Nat) : Bool :=
  sector_data.all fun b => b = 0

/-- `is_sector_in_safe_range(sector)` from jmraidstatus.c: 0x21 is allowed
for backwards compatibility, sectors below 64 and at or above 2048 are
rejected, everything else is accepted. -/
def is_sector_in_safe_range (sector : Nat) : Bool :=
  if sector = 0x21 then true
  else if sector < 64 then false
  else if 2048 ≤ sector then false
  else true

/-- Operations main issues against the device during startup, in order. -/
inductive DevOp
  | openDev
  | blockRead (sector : Nat)
  | sgWrite (sector : Nat)
  | sgRead (sector : Nat)
deriving DecidableEq, Repr

/-- Whether a device operation writes to the device. -/
def DevOp.isWrite : DevOp → Bool
  | .sgWrite _ => true
  | _ => false

/-- Outcome of the pre-run open phase of main. `sectorHasData` is the
refusal of jmraidstatus.c lines 624-644 (the mailbox sector read through
the normal block path is not all zeros); `sectorOutOfRange` is the refusal of
lines 522-539 (LBA outside the safe set). Both exit with code 3. -/
inductive OpenResult
  | opened
  | sectorOutOfRange
  | sectorHasData
deriving DecidableEq, Repr

/-- The exit code main returns when the open phase refuses to proceed
(`return 3` at jmraidstatus.c lines 538 and 643). -/
def refusal_exit_code : OpenResult → Option Nat
  | .opened => none
  | .sectorOutOfRange => some 3
  | .sectorHasData => some 3

/-- Modelled from the spec: the pre-run open phase of `main`
(jmraidstatus.c lines 522-649). The four-argument `jm_init_device` that
main calls — the variant that fills `backup_sector` — is not in the source
tree (jm_protocol.c holds an older two-argument variant); per the spec
(section 4.3 open_mailbox) and the jm_protocol.h comment on
`jm_read_sector_block`, it reads the mailbox sector through the normal
block-device path and issues no writes. `preRead` is the 512-byte content
that read returns. The LBA range check runs before the device is touched;
a non-empty pre-read makes main close the device and return 3 before any
wakeup or command write is sent. -/
def open_phase (sector : Nat) (preRead : List Nat) : OpenResult × List DevOp :=
  if is_sector_in_safe_range sector = false then (.sectorOutOfRange, [])
  else if is_sector_empty preRead = false then
    (.sectorHasData, [.openDev, .blockRead sector])
  else (.opened, [.openDev, .blockRead sector])

/-! ## Protocol execute (src/src/jm_protocol.c) -/

/-- `jm_error_code_t` from jm_protocol.h. -/
inductive jm_error_code_t
  | JM_SUCCESS
  | JM_ERROR_DEVICE_OPEN
  | JM_ERROR_NOT_SG_DEVICE
  | JM_ERROR_IOCTL_FAILED
  | JM_ERROR_CRC_MISMATCH
  | JM_ERROR_INVALID_ARGS
deriving DecidableEq, Repr

/-- View a 128-word frame as the word array JM_CRC reads (indices at or
beyond 128 are never dereferenced by the embedded call sites). -/
def wordsOf (f : Fin 128 → Nat) : Nat → Nat :=
  fun i => if h : i < 128 then f ⟨i, h⟩ else 0

/-- Store value `v` at word `j` of a frame (`cmd_buf[0x7f] = crc`). -/
def setWord (f : Fin 128 → Nat) (j : Fin 128) (v : Nat) : Fin 128 → Nat :=
  fun i => if i = j then v else f i

/-- The environment a single `jm_execute_command` round-trip runs in:
whether the WRITE(10) and READ(10) ioctls succeed, and the scrambled
512-byte frame the device read returns. -/
structure ExecEnv where
  writeOk : Bool
  readOk : Bool
  respRaw : Fin 128 → Nat

/-- Result of one `jm_execute_command` round-trip: the error code, the
scrambled frame written to the mailbox (when the call got that far), and
the unscrambled response (when both ioctls succeeded). -/
structure ExecOutcome where
  code : jm_error_code_t
  wire : Option (Fin 128 → Nat)
  resp : Option (Fin 128 → Nat)

/-- `jm_execute_command(fd, cmd_buf, resp_buf, sector)` from jm_protocol.c
lines 293-341: stamp the CRC of words 0..126 at word 0x7f, scramble, write,
read, unscramble, and compare the CRC of words 0..126 of the response with
its word 0x7f, returning JM_ERROR_CRC_MISMATCH on disagreement and
JM_SUCCESS on agreement. Ioctl failures surface as JM_ERROR_IOCTL_FAILED. -/
def jm_execute_command (mask : Fin 128 → Nat) (cmd_buf : Fin 128 → Nat)
    (env : ExecEnv) : ExecOutcome :=
  let crc := JM_CRC (wordsOf cmd_buf) 0x7f
  let stamped := setWord cmd_buf 0x7f crc
  let wire := SATA_XOR mask stamped
  if env.writeOk = false then ⟨.JM_ERROR_IOCTL_FAILED, some wire, none⟩
  else if env.readOk = false then ⟨.JM_ERROR_IOCTL_FAILED, some wire, none⟩
  else
    let resp := SATA_XOR mask env.respRaw
    if JM_CRC (wordsOf resp) 0x7f ≠ wordsOf resp 0x7f then
      ⟨.JM_ERROR_CRC_MISMATCH, some wire, some resp⟩
    else ⟨.JM_SUCCESS, some wire, some resp⟩

/-! ## Command layer (src/src/jm_commands.c) -/

/-- `#define JM_RAID_SCRAMBLED_CMD (0x197b0322)` in jm_commands.c. -/
def JM_RAID_SCRAMBLED_CMD : Nat := 0x197b0322

/-- Pack four bytes into a little-endian 32-bit word. -/
def pack_le (b0 b1 b2 b3 : Nat) : Nat :=
  b0 + 256 * b1 + 65536 * b2 + 16777216 * b3

/-- The command frame built by `execute_probe_command` (jm_commands.c lines
32-47) for a given current counter value: word 0 is the scrambled-command
magic, word 1 is the counter, the probe bytes start at byte offset 8 and
the rest of the zero-filled buffer stays zero. (The CRC at word 0x7f is
stamped later, inside `jm_execute_command`.) -/
def execute_probe_frame (cmd_counter : Nat) (probe : List Nat) : Fin 128 → Nat :=
  fun i =>
    if i.val = 0 then JM_RAID_SCRAMBLED_CMD
    else if i.val = 1 then cmd_counter
    else
      pack_le (probe.getD (4 * i.val - 8) 0) (probe.getD (4 * i.val - 7) 0)
        (probe.getD (4 * i.val - 6) 0) (probe.getD (4 * i.val - 5) 0)

/-- The value of `static uint32_t cmd_counter = 1` (jm_commands.c line 18)
when the n-th probe command of a session is transmitted: it starts at 1
and `cmd_counter++` advances it once per frame, wrapping as a uint32. -/
def cmd_counter_seq : Nat → Nat
  | 0 => 1
  | n + 1 => (cmd_counter_seq n + 1) % 2 ^ 32

/-- The n-th command frame transmitted within a session that repeatedly
calls `execute_probe_command` with payload `probe`. -/
def session_frame (probe : List Nat) (n : Nat) : Fin 128 → Nat :=
  execute_probe_frame (cmd_counter_seq n) probe

/-- Closed form of the counter sequence: the n-th frame carries counter
value (1 + n) mod 2^32. -/
theorem cmd_counter_seq_closed (n : Nat) : cmd_counter_seq n = (1 + n) % 2 ^ 32 := by
  induction n with
  | zero => rfl
  | succ n ih =>
      rw [cmd_counter_seq, ih, Nat.mod_add_mod]
      omega

/-! ## Theorems: mailbox safety, execute, counter -/

/-- C1: for every mailbox LBA whose pre-run read through the normal
block-device path returns at least one non-zero byte among the 512, the
open phase returns the UnsafeSector refusal (exit code 3) and no write of
any kind has been issued to the device. -/
theorem open_phase_refuses_nonzero (sector : Nat) (pre : List Nat)
    (hrange : is_sector_in_safe_range sector = true)
    (hlen : pre.length = 512)
    (hnz : ∃ b ∈ pre, b ≠ 0) :
    (open_phase sector pre).1 = OpenResult.sectorHasData ∧
    refusal_exit_code (open_phase sector pre).1 = some 3 ∧
    ∀ op ∈ (open_phase sector pre).2, op.isWrite = false := by
  obtain ⟨b, hb, hb0⟩ := hnz
  have hempty : is_sector_empty pre = false := by
    by_contra hcon
    have htrue : is_sector_empty pre = true := by
      cases h2 : is_sector_empty pre
      · exact absurd h2 hcon
      · rfl
    rw [is_sector_empty] at htrue
    have := List.all_eq_true.mp htrue b hb
    simp only [decide_eq_true_eq] at this
    exact hb0 this
  rw [open_phase, hrange, hempty]
  rw [if_neg (by simp), if_pos rfl]
  refine ⟨rfl, rfl, ?_⟩
  intro op hop
  rcases List.mem_cons.mp hop with h | h
  · rw [h]; rfl
  · rw [List.mem_singleton.mp h]; rfl

/-- C1 witness: sector 1024 with a pre-read whose last byte is 7. -/
theorem open_phase_refuses_nonzero_witness :
    (open_phase 1024 (List.replicate 511 0 ++ [7])).1 = OpenResult.sectorHasData ∧
    refusal_exit_code (open_phase 1024 (List.replicate 511 0 ++ [7])).1 = some 3 ∧
    ∀ op ∈ (open_phase 1024 (List.replicate 511 0 ++ [7])).2, op.isWrite = false :=
  open_phase_refuses_nonzero 1024 (List.replicate 511 0 ++ [7]) (by decide)
    (by rw [List.length_append, List.length_replicate, List.length_singleton])
    ⟨7, List.mem_append.mpr (Or.inr (List.mem_singleton.mpr rfl)), by decide⟩

/-- C4: when both the write and the read ioctl succeed,
`jm_execute_command` returns JM_ERROR_CRC_MISMATCH exactly when the CRC
computed over words 0..126 of the unscrambled response differs from the
value stored at word 127, and returns JM_SUCCESS when they match. -/
theorem jm_execute_command_crc_check (mask cmd : Fin 128 → Nat) (env : ExecEnv)
    (hw : env.writeOk = true) (hr : env.readOk = true) :
    ((jm_execute_command mask cmd env).code = jm_error_code_t.JM_ERROR_CRC_MISMATCH ↔
      JM_CRC (wordsOf (SATA_XOR mask env.respRaw)) 0x7f ≠
        wordsOf (SATA_XOR mask env.respRaw) 0x7f) ∧
    (JM_CRC (wordsOf (SATA_XOR mask env.respRaw)) 0x7f =
        wordsOf (SATA_XOR mask env.respRaw) 0x7f →
      (jm_execute_command mask cmd env).code = jm_error_code_t.JM_SUCCESS) := by
  rw [jm_execute_command, hw, hr]
  by_cases h : JM_CRC (wordsOf (SATA_XOR mask env.respRaw)) 0x7f =
      wordsOf (SATA_XOR mask env.respRaw) 0x7f
  · simp [h]
  · simp [h]

/-- C4 witness: the round-trip with the zero mask, a zero command frame,
an all-zero raw response and both ioctls succeeding satisfies both
hypotheses, and the CRC-mismatch characterisation holds for it. -/
theorem jm_execute_command_crc_check_witness :
    (ExecEnv.mk true true fun _ => 0).writeOk = true ∧
    (ExecEnv.mk true true fun _ => 0).readOk = true ∧
    (((jm_execute_command (fun _ => 0) (fun _ => 0)
        ⟨true, true, fun _ => 0⟩).code = jm_error_code_t.JM_ERROR_CRC_MISMATCH ↔
      JM_CRC (wordsOf (SATA_XOR (fun _ => 0) fun _ => 0)) 0x7f ≠
        wordsOf (SATA_XOR (fun _ => 0) fun _ => 0) 0x7f) ∧
    (JM_CRC (wordsOf (SATA_XOR (fun _ => 0) fun _ => 0)) 0x7f =
        wordsOf (SATA_XOR (fun _ => 0) fun _ => 0) 0x7f →
      (jm_execute_command (fun _ => 0) (fun _ => 0)
        ⟨true, true, fun _ => 0⟩).code = jm_error_code_t.JM_SUCCESS)) :=
  ⟨rfl, rfl, jm_execute_command_crc_check (fun _ => 0) (fun _ => 0)
    ⟨true, true, fun _ => 0⟩ rfl rfl⟩

/-- C5: a 32-bit LBA is accepted by `is_sector_in_safe_range` exactly when
it is 33 or satisfies 64 ≤ lba < 2048; for any other LBA the open phase
refuses to start with exit code 3 before touching the device (its
operation trace is empty, so no session is opened). -/
theorem is_sector_in_safe_range_spec (sector : Nat) (hsz : sector < 2 ^ 32) :
    (is_sector_in_safe_range sector = true ↔
      sector = 33 ∨ (64 ≤ sector ∧ sector < 2048)) ∧
    (is_sector_in_safe_range sector = false →
      ∀ pre, open_phase sector pre = (OpenResult.sectorOutOfRange, []) ∧
        refusal_exit_code OpenResult.sectorOutOfRange = some 3) := by
  constructor
  · rw [is_sector_in_safe_range]
    split_ifs with h1 h2 h3 <;> simp <;> omega
  · intro hbad pre
    rw [open_phase, hbad, if_pos rfl]
    exact ⟨rfl, rfl⟩

/-- C5 witness: sector 33 is accepted; sector 63 (outside the safe set)
makes the open phase refuse with exit code 3 and an empty trace. -/
theorem is_sector_in_safe_range_spec_witness :
    is_sector_in_safe_range 33 = true ∧
    (open_phase 63 [] = (OpenResult.sectorOutOfRange, []) ∧
      refusal_exit_code OpenResult.sectorOutOfRange = some 3) :=
  ⟨(is_sector_in_safe_range_spec 33 (by decide)).1.mpr (Or.inl rfl),
    (is_sector_in_safe_range_spec 63 (by decide)).2 (by decide) []⟩

/-- C6 counterexample: `cmd_counter` is a uint32, so in a session long
enough to transmit 2^32 frames the counter placed at word 1 wraps: frame
2^32 - 2 (0-indexed) carries 0xFFFFFFFF and the next frame carries 0, so
the word-1 values of successive command frames are not strictly
increasing. -/
theorem cmd_counter_word1_wraps :
    session_frame [] (2 ^ 32 - 2) 1 = 2 ^ 32 - 1 ∧
    session_frame [] (2 ^ 32 - 1) 1 = 0 ∧
    ¬ session_frame [] (2 ^ 32 - 2) 1 < session_frame [] (2 ^ 32 - 1) 1 := by
  have hframe : ∀ n : Nat, session_frame [] n 1 = cmd_counter_seq n := fun n => rfl
  rw [hframe, hframe, cmd_counter_seq_closed, cmd_counter_seq_closed]
  refine ⟨by norm_num, by norm_num, ?_⟩
  norm_num

/-- C6 amended: within a session the command counter starts at 1 and is
advanced (as a uint32) exactly once per transmitted command frame, so as
long as fewer than 2^32 - 1 frames have been transmitted the counter
values placed at word 1 of successive command frames are strictly
increasing with no gaps (each is the predecessor plus one). -/
theorem cmd_counter_monotone_before_wrap :
    cmd_counter_seq 0 = 1 ∧
    (∀ n, cmd_counter_seq (n + 1) = (cmd_counter_seq n + 1) % 2 ^ 32) ∧
    (∀ probe n, session_frame probe n 1 = cmd_counter_seq n) ∧
    (∀ probe n, n + 2 < 2 ^ 32 →
      session_frame probe (n + 1) 1 = session_frame probe n 1 + 1) := by
  refine ⟨rfl, fun n => rfl, fun probe n => rfl, fun probe n h => ?_⟩
  show cmd_counter_seq (n + 1) = cmd_counter_seq n + 1
  rw [cmd_counter_seq_closed, cmd_counter_seq_closed,
    Nat.mod_eq_of_lt (by omega), Nat.mod_eq_of_lt (by omega)]
  omega

/-- C6 witness: the second frame of a session carries word-1 value one
more than the first. -/
theorem cmd_counter_monotone_before_wrap_witness :
    0 + 2 < 2 ^ 32 ∧ session_frame [] (0 + 1) 1 = session_frame [] 0 1 + 1 :=
  ⟨by norm_num, cmd_counter_monotone_before_wrap.2.2.2 [] 0 (by norm_num)⟩

end JmRaidStatus
